import Mathlib

/-!
Verification of the Stock-Indicator-App core against its specification.

The development shallowly embeds the indicator calculator
(`indicators.py`), the signal engine (`signal_engine.py`) and the stock
directory search (`stock_search.py`).

Modelling conventions:
* Python floats are modelled as `ℚ` together with the small inductive
  `Fl` (`nan` / `inf` / `neginf` / `fin q`) where IEEE special values can
  arise (pandas rolling windows, division).  `pd.isna` is true exactly on
  `Fl.nan`.
* pandas series are Lean lists; a missing value (NaN) in an indicator
  series consumed by the signal engine is `Option.none`.
* The `indicators` dictionary handed to the signal engine is modelled by
  the structure `Indicators`; its `latest` snapshot is derived from the
  stored series exactly as `calculate_all_indicators` derives it
  (last element of the series, `None` when NaN).
* Out-of-range positional accesses (`iloc`) are modelled with optional
  lookup; on every rectangular price frame (all columns the same length,
  as pandas guarantees) the embedded functions agree with the Python
  source.
-/

/-- Model of the IEEE float values reachable in this program:
NaN, the two infinities and finite values (as rationals). -/
inductive Fl where
  | nan : Fl
  | inf : Fl
  | neginf : Fl
  | fin : ℚ → Fl
deriving DecidableEq

/-- IEEE addition on the modelled values (NaN propagates, inf + (-inf) = NaN). -/
def Fl.add : Fl → Fl → Fl
  | .nan, _ => .nan
  | _, .nan => .nan
  | .inf, .neginf => .nan
  | .neginf, .inf => .nan
  | .inf, _ => .inf
  | _, .inf => .inf
  | .neginf, _ => .neginf
  | _, .neginf => .neginf
  | .fin a, .fin b => .fin (a + b)

/-- IEEE negation on the modelled values. -/
def Fl.neg : Fl → Fl
  | .nan => .nan
  | .inf => .neginf
  | .neginf => .inf
  | .fin a => .fin (-a)

/-- IEEE subtraction, `a - b = a + (-b)`. -/
def Fl.sub (a b : Fl) : Fl := Fl.add a (Fl.neg b)

/-- IEEE multiplication on the modelled values. -/
def Fl.mul : Fl → Fl → Fl
  | .nan, _ => .nan
  | _, .nan => .nan
  | .inf, .inf => .inf
  | .inf, .neginf => .neginf
  | .neginf, .inf => .neginf
  | .neginf, .neginf => .inf
  | .inf, .fin b => if b = 0 then .nan else if 0 < b then .inf else .neginf
  | .fin a, .inf => if a = 0 then .nan else if 0 < a then .inf else .neginf
  | .neginf, .fin b => if b = 0 then .nan else if 0 < b then .neginf else .inf
  | .fin a, .neginf => if a = 0 then .nan else if 0 < a then .neginf else .inf
  | .fin a, .fin b => .fin (a * b)

/-- IEEE division on the modelled values: pandas produces `inf` for
positive/0, `-inf` for negative/0 and NaN for 0/0. -/
def Fl.div : Fl → Fl → Fl
  | .nan, _ => .nan
  | _, .nan => .nan
  | .fin a, .fin b =>
      if b = 0 then (if a = 0 then .nan else if 0 < a then .inf else .neginf)
      else .fin (a / b)
  | .fin _, .inf => .fin 0
  | .fin _, .neginf => .fin 0
  | .inf, .fin b => if 0 ≤ b then .inf else .neginf
  | .neginf, .fin b => if 0 ≤ b then .neginf else .inf
  | .inf, .inf => .nan
  | .inf, .neginf => .nan
  | .neginf, .inf => .nan
  | .neginf, .neginf => .nan

/-- Downstream view of a float series entry: `pd.isna` is true only on NaN,
so NaN becomes `none` and a finite value becomes `some`.  The infinities do
not occur in any series stored by `calculate_all_indicators` (RSI is
finite-or-NaN, see `rsi_bounded`); they are mapped to `none` to keep the
type small. -/
def Fl.toOpt : Fl → Option ℚ
  | .fin q => some q
  | _ => none

/-- Sum of a list of rationals. -/
def qsum (l : List ℚ) : ℚ := l.foldr (· + ·) 0

/-- The trailing window of width `w` ending at position `i` (inclusive). -/
def windowSlice (l : List ℚ) (i w : Nat) : List ℚ := (l.take (i + 1)).drop (i + 1 - w)

/-- Embedding of `series.rolling(window=w).mean()` on a NaN-free series:
position `i` is NaN until `w` observations are available, then the
arithmetic mean of the trailing window. -/
def rollingMean (l : List ℚ) (w : Nat) : List Fl :=
  (List.range l.length).map fun i =>
    if i + 1 < w then Fl.nan else Fl.fin (qsum (windowSlice l i w) / (w : ℚ))

/-- Embedding of `calculate_sma` from `indicators.py`:
`data.rolling(window=window).mean()`. -/
def calculate_sma (data : List ℚ) (window : Nat) : List Fl :=
  rollingMean data window

/-- One step of the `ewm(span, adjust=False)` recurrence
`y = alpha * x + (1 - alpha) * prev`. -/
def emaStep (alpha : ℚ) : ℚ → List ℚ → List ℚ
  | _, [] => []
  | prev, x :: xs =>
      let y := alpha * x + (1 - alpha) * prev
      y :: emaStep alpha y xs

/-- Embedding of `calculate_ema` from `indicators.py`:
`data.ewm(span=window, adjust=False).mean()`, the exponentially weighted
mean with `alpha = 2/(window+1)` seeded at the first price.  Every output
of `ewm` on NaN-free input is a (finite) number. -/
def calculate_ema (data : List ℚ) (window : Nat) : List Fl :=
  let alpha : ℚ := 2 / ((window : ℚ) + 1)
  match data with
  | [] => []
  | x :: xs => Fl.fin x :: (emaStep alpha x xs).map Fl.fin

/-- Embedding of `data.diff()`: NaN at position 0, consecutive difference
afterwards. -/
def deltas (l : List ℚ) : List Fl :=
  (List.range l.length).map fun i =>
    if i = 0 then Fl.nan
    else
      match l[i]?, l[i - 1]? with
      | some a, some b => Fl.fin (a - b)
      | _, _ => Fl.nan

/-- Embedding of `delta.where(delta > 0, 0)`: positive deltas kept,
everything else (negative, zero or NaN) replaced by `0`. -/
def gains (l : List ℚ) : List ℚ :=
  (deltas l).map fun d =>
    match d with
    | Fl.fin q => if 0 < q then q else 0
    | _ => 0

/-- Embedding of `-delta.where(delta < 0, 0)`: negative deltas as positive
magnitudes, everything else replaced by `0`. -/
def losses (l : List ℚ) : List ℚ :=
  (deltas l).map fun d =>
    match d with
    | Fl.fin q => if q < 0 then -q else 0
    | _ => 0

/-- The pointwise RSI formula `100 - 100 / (1 + gain/loss)` evaluated with
IEEE arithmetic on the two rolling averages. -/
def rsiPoint (g lo : Fl) : Fl :=
  Fl.sub (Fl.fin 100) (Fl.div (Fl.fin 100) (Fl.add (Fl.fin 1) (Fl.div g lo)))

/-- Embedding of `calculate_rsi` from `indicators.py`. -/
def calculate_rsi (data : List ℚ) (window : Nat) : List Fl :=
  let g := rollingMean (gains data) window
  let lo := rollingMean (losses data) window
  (g.zip lo).map fun p => rsiPoint p.1 p.2

/-- Embedding of `calculate_momentum` from `indicators.py`:
`((data / data.shift(window)) - 1) * 100`. -/
def calculate_momentum (data : List ℚ) (window : Nat) : List Fl :=
  (List.range data.length).map fun i =>
    if i < window then Fl.nan
    else
      match data[i]?, data[i - window]? with
      | some a, some b => Fl.mul (Fl.sub (Fl.div (Fl.fin a) (Fl.fin b)) (Fl.fin 1)) (Fl.fin 100)
      | _, _ => Fl.nan

/-- A price frame: the optional `Close` and `Volume` columns (a column that
is absent in the DataFrame is `none`). -/
structure PriceData where
  close? : Option (List ℚ)
  volume? : Option (List ℚ)

/-- The `Close` column, empty when absent. -/
def PriceData.closeL (d : PriceData) : List ℚ := d.close?.getD []

/-- Number of rows of the frame (all pandas columns share one length). -/
def PriceData.nrows (d : PriceData) : Nat :=
  match d.close? with
  | some c => c.length
  | none => (d.volume?.getD []).length

/-- Embedding of `price_data.empty`. -/
def PriceData.isEmptyF (d : PriceData) : Bool := d.nrows == 0

/-- The indicator series bundle stored under the `indicators` key of the
dictionary returned by `calculate_all_indicators`.  Entries are `none`
where the pandas series holds NaN. -/
structure IndicatorSeries where
  sma_20 : List (Option ℚ)
  sma_50 : List (Option ℚ)
  sma_200 : List (Option ℚ)
  ema_12 : List (Option ℚ)
  ema_26 : List (Option ℚ)
  rsi : List (Option ℚ)
  momentum : List (Option ℚ)
  volume_avg : Option (List (Option ℚ))

/-- The indicators dictionary consumed by the signal engine: success flag,
the latest close (`latest['current_price']`) and the series bundle.  The
remaining `latest` entries are derived from the series by `lastVal`,
exactly as `calculate_all_indicators` derives them. -/
structure Indicators where
  success : Bool
  current_price : ℚ
  series : IndicatorSeries

/-- Embedding of the `latest` extraction
`series.iloc[-1] if not pd.isna(series.iloc[-1]) else None`. -/
def lastVal (l : List (Option ℚ)) : Option ℚ := (l.getLast?).getD none

/-- Embedding of `series.iloc[-2]` on a series of length at least two
(callers guard the length). -/
def prevVal (l : List (Option ℚ)) : Option ℚ := (l[l.length - 2]?).getD none

/-- Comparison `a <= b` where `b` may be NaN: any comparison with NaN is
false. -/
def qleO (a : ℚ) (b : Option ℚ) : Bool :=
  match b with
  | none => false
  | some q => decide (a ≤ q)

/-- Comparison `a >= b` where `b` may be NaN. -/
def qgeO (a : ℚ) (b : Option ℚ) : Bool :=
  match b with
  | none => false
  | some q => decide (q ≤ a)

/-- Comparison `a <= b` where either side may be NaN. -/
def oleO (a b : Option ℚ) : Bool :=
  match a, b with
  | some x, some y => decide (x ≤ y)
  | _, _ => false

/-- Comparison `a >= b` where either side may be NaN. -/
def ogeO (a b : Option ℚ) : Bool :=
  match a, b with
  | some x, some y => decide (y ≤ x)
  | _, _ => false

/-- Rendering of a number inside a reason string.  Python formats with
`"{:.1f}"`/`"{:.2f}"`; the digit rendering is irrelevant to every property
below, so the decimal expansion is abstracted by `toString`. -/
def fmtQ (q : ℚ) : String := toString q

/-- Embedding of `", ".join(reasons)`. -/
def joinComma : List String → String
  | [] => ""
  | [x] => x
  | x :: xs => x ++ ", " ++ joinComma xs

/-! ### Signal engine (`signal_engine.py`) -/

/-- RSI rule of `generate_short_term_signal` (lines 48-60): oversold,
overbought and the two approach bands.  Returns the (buy, sell, reasons)
contribution. -/
def stRule1 : Option ℚ → ℕ × ℕ × List String
  | none => (0, 0, [])
  | some r =>
    if r < 30 then (2, 0, ["RSI = " ++ fmtQ r ++ " (oversold)"])
    else if 70 < r then (0, 2, ["RSI = " ++ fmtQ r ++ " (overbought)"])
    else if 30 ≤ r ∧ r ≤ 40 then (1, 0, ["RSI = " ++ fmtQ r ++ " (approaching oversold)"])
    else if 60 ≤ r ∧ r ≤ 70 then (0, 1, ["RSI = " ++ fmtQ r ++ " (approaching overbought)"])
    else (0, 0, [])

/-- Price-vs-SMA20 rule of `generate_short_term_signal` (lines 63-81):
crossover detection on the last two points, else the two 2% bands. -/
def stRule2 (ind : Indicators) (pd : PriceData) : ℕ × ℕ × List String :=
  match lastVal ind.series.sma_20 with
  | none => (0, 0, [])
  | some m =>
    if 0 < ind.current_price then
      let ser := ind.series.sma_20
      if ser.isEmpty = false ∧ 2 ≤ ser.length then
        let p := ind.current_price
        let prev_price : ℚ :=
          if 2 ≤ pd.nrows then ((pd.closeL)[pd.nrows - 2]?).getD p else p
        let prev_sma20 : Option ℚ :=
          if 2 ≤ ser.length then prevVal ser else some m
        if qleO prev_price prev_sma20 && decide (m < p) then
          (2, 0, ["Price crossed above SMA20 (bullish breakout)"])
        else if qgeO prev_price prev_sma20 && decide (p < m) then
          (0, 2, ["Price crossed below SMA20 (bearish breakdown)"])
        else if m * (102 / 100) < p then
          (1, 0, ["Price significantly above SMA20"])
        else if p < m * (98 / 100) then
          (0, 1, ["Price significantly below SMA20"])
        else (0, 0, [])
      else (0, 0, [])
    else (0, 0, [])

/-- Momentum rule of `generate_short_term_signal` (lines 84-90). -/
def stRule3 : Option ℚ → ℕ × ℕ × List String
  | none => (0, 0, [])
  | some m =>
    if 5 < m then (1, 0, ["Strong positive momentum (" ++ fmtQ m ++ "%)"])
    else if m < -5 then (0, 1, ["Strong negative momentum (" ++ fmtQ m ++ "%)"])
    else (0, 0, [])

/-- The guard of the volume-confirmation block (lines 93-99): the
`volume_avg` series exists and is non-empty, the frame has a `Volume`
column, the latest average volume is a number greater than zero and the
volume ratio exceeds 1.5. -/
def volCond (ind : Indicators) (pd : PriceData) : Bool :=
  match ind.series.volume_avg with
  | none => false
  | some va =>
    if va.isEmpty then false
    else
      match pd.volume? with
      | none => false
      | some vol =>
        match vol.getLast? with
        | none => false
        | some cv =>
          match lastVal va with
          | none => false
          | some av => decide (0 < av) && decide ((3 : ℚ) / 2 < cv / av)

/-- Volume-confirmation block of `generate_short_term_signal`
(lines 92-103): appends a note for the current leader, changes no score. -/
def stVolNote (ind : Indicators) (pd : PriceData) (b s : ℕ) : List String :=
  match ind.series.volume_avg with
  | none => []
  | some va =>
    if va.isEmpty then []
    else
      match pd.volume? with
      | none => []
      | some vol =>
        match vol.getLast? with
        | none => []
        | some cv =>
          match lastVal va with
          | none => []
          | some av =>
            if 0 < av then
              if (3 : ℚ) / 2 < cv / av then
                if s < b then ["High volume confirms bullish move"]
                else if b < s then ["High volume confirms bearish move"]
                else []
              else []
            else []

/-- Scores and reasons accumulated by the three scoring rules of
`generate_short_term_signal` (RSI, SMA20, momentum). -/
def stCore (ind : Indicators) (pd : PriceData) : ℕ × ℕ × List String :=
  let r1 := stRule1 (lastVal ind.series.rsi)
  let r2 := stRule2 ind pd
  let r3 := stRule3 (lastVal ind.series.momentum)
  (r1.1 + r2.1 + r3.1, r1.2.1 + r2.2.1 + r3.2.1, r1.2.2 ++ r2.2.2 ++ r3.2.2)

/-- Final scores and reasons of `generate_short_term_signal`: the volume
block appends its note to the reasons and leaves both scores unchanged. -/
def stScores (ind : Indicators) (pd : PriceData) : ℕ × ℕ × List String :=
  let c := stCore ind pd
  (c.1, c.2.1, c.2.2 ++ stVolNote ind pd c.1 c.2.1)

/-- Decision ladder of `generate_short_term_signal` (lines 106-111). -/
def stDecide (b s : ℕ) : String :=
  if s < b ∧ 2 ≤ b then "BUY"
  else if b < s ∧ 2 ≤ s then "SELL"
  else "HOLD"

/-- Embedding of `generate_short_term_signal` from `signal_engine.py`. -/
def generate_short_term_signal (ind : Indicators) (pd : PriceData) : String × String :=
  if ind.success = false then ("HOLD", "Insufficient data for analysis")
  else
    let r := stScores ind pd
    (stDecide r.1 r.2.1,
     if r.2.2.isEmpty then "Neutral technical indicators" else joinComma r.2.2)

/-- SMA200 rule of `generate_long_term_signal` (lines 152-158): price above
the latest SMA200 scores +3 buy, otherwise +2 sell. -/
def ltRule1 (p : ℚ) (sma200 : Option ℚ) : ℕ × ℕ × List String :=
  match sma200 with
  | none => (0, 0, [])
  | some s =>
    if 0 < p then
      if s < p then
        (3, 0, ["Price (" ++ fmtQ p ++ ") above SMA200 (" ++ fmtQ s ++ ") - long-term uptrend"])
      else
        (0, 2, ["Price (" ++ fmtQ p ++ ") below SMA200 (" ++ fmtQ s ++ ") - long-term downtrend"])
    else (0, 0, [])

/-- Embedding of `sma_200_series.iloc[-2] if len(sma_200_series) >= 2 else
sma_200` (line 167). -/
def prevSma200 (s200 : List (Option ℚ)) (latest : ℚ) : Option ℚ :=
  if 2 ≤ s200.length then prevVal s200 else some latest

/-- Golden/Death-Cross rule of `generate_long_term_signal` (lines 161-182). -/
def ltRule2 (ind : Indicators) : ℕ × ℕ × List String :=
  match lastVal ind.series.sma_50, lastVal ind.series.sma_200 with
  | some a, some b =>
    let s50 := ind.series.sma_50
    let s200 := ind.series.sma_200
    if s50.isEmpty = false ∧ s200.isEmpty = false ∧ 2 ≤ s50.length then
      let prev50 := prevVal s50
      let prev200 := prevSma200 s200 b
      if oleO prev50 prev200 && decide (b < a) then
        (3, 0, ["Golden Cross detected (SMA50 > SMA200) - strong bullish signal"])
      else if ogeO prev50 prev200 && decide (a < b) then
        (0, 3, ["Death Cross detected (SMA50 < SMA200) - strong bearish signal"])
      else if b < a then (1, 0, ["SMA50 above SMA200 - positive trend"])
      else if a < b then (0, 1, ["SMA50 below SMA200 - negative trend"])
      else (0, 0, [])
    else (0, 0, [])
  | _, _ => (0, 0, [])

/-- Momentum rule of `generate_long_term_signal` (lines 185-191). -/
def ltRule3 : Option ℚ → ℕ × ℕ × List String
  | none => (0, 0, [])
  | some m =>
    if 10 < m then (2, 0, ["Strong long-term momentum (" ++ fmtQ m ++ "%)"])
    else if m < -10 then (0, 2, ["Weak long-term momentum (" ++ fmtQ m ++ "%)"])
    else (0, 0, [])

/-- An analyst recommendation record; only the `toGrade` field is read by
the signal engine (`rec.get('toGrade', '')`). -/
structure Recommendation where
  toGrade : String

/-- Uppercasing of an (ASCII) grade or query string, `str.upper()`. -/
def strUpper (s : String) : String := ⟨s.data.map Char.toUpper⟩

/-- Lowercasing of an (ASCII) string, `str.lower()`. -/
def strLower (s : String) : String := ⟨s.data.map Char.toLower⟩

/-- Analyst-recommendation rule of `generate_long_term_signal`
(lines 194-204): over the last five records, compare the buy-grade count
with twice the sell-grade count. -/
def ltRule4 (recs : List Recommendation) : ℕ × ℕ × List String :=
  if recs.isEmpty then (0, 0, [])
  else
    let recent := if 5 ≤ recs.length then recs.drop (recs.length - 5) else recs
    let bc := recent.countP fun r =>
      ["BUY", "STRONG BUY", "OUTPERFORM"].contains (strUpper r.toGrade)
    let sc := recent.countP fun r =>
      ["SELL", "STRONG SELL", "UNDERPERFORM"].contains (strUpper r.toGrade)
    if sc * 2 < bc then (1, 0, ["Analyst sentiment: " ++ toString bc ++ " buy recommendations"])
    else if bc * 2 < sc then (0, 1, ["Analyst sentiment: " ++ toString sc ++ " sell recommendations"])
    else (0, 0, [])

/-- Scores and reasons of the long-term rules other than the SMA200 rule
(crossover, momentum, analysts), in source order. -/
def ltRest (ind : Indicators) (recs : List Recommendation) : ℕ × ℕ × List String :=
  let r2 := ltRule2 ind
  let r3 := ltRule3 (lastVal ind.series.momentum)
  let r4 := ltRule4 recs
  (r2.1 + r3.1 + r4.1, r2.2.1 + r3.2.1 + r4.2.1, r2.2.2 ++ r3.2.2 ++ r4.2.2)

/-- Scores and reasons accumulated by `generate_long_term_signal`. -/
def ltScores (ind : Indicators) (recs : List Recommendation) : ℕ × ℕ × List String :=
  let r1 := ltRule1 ind.current_price (lastVal ind.series.sma_200)
  let rest := ltRest ind recs
  (r1.1 + rest.1, r1.2.1 + rest.2.1, r1.2.2 ++ rest.2.2)

/-- Decision ladder of `generate_long_term_signal` (lines 207-216). -/
def ltDecide (b s : ℕ) : String :=
  if 4 ≤ b then "BUY"
  else if 4 ≤ s then "SELL"
  else if s < b then "HOLD (Bullish)"
  else if b < s then "HOLD (Bearish)"
  else "HOLD"

/-- Embedding of `generate_long_term_signal` from `signal_engine.py`
(the `price_data` argument is accepted but never read by the source). -/
def generate_long_term_signal (ind : Indicators) (pd : PriceData)
    (recs : List Recommendation) : String × String :=
  if ind.success = false then ("HOLD", "Insufficient data for analysis")
  else
    let r := ltScores ind recs
    (ltDecide r.1 r.2.1,
     if r.2.2.isEmpty then "Mixed long-term indicators" else joinComma r.2.2)

/-- Embedding of `calculate_all_indicators` from `indicators.py`: a tagged
error on an empty frame or a frame without a `Close` column, otherwise the
indicator bundle with `success` set. -/
def calculate_all_indicators (d : PriceData) : Except String Indicators :=
  if d.isEmptyF || d.close?.isNone then Except.error "Invalid price data"
  else
    let close := d.closeL
    Except.ok
      { success := true
        current_price := (close.getLast?).getD 0
        series :=
          { sma_20 := (calculate_sma close 20).map Fl.toOpt
            sma_50 := (calculate_sma close 50).map Fl.toOpt
            sma_200 := (calculate_sma close 200).map Fl.toOpt
            ema_12 := (calculate_ema close 12).map Fl.toOpt
            ema_26 := (calculate_ema close 26).map Fl.toOpt
            rsi := (calculate_rsi close 14).map Fl.toOpt
            momentum := (calculate_momentum close 10).map Fl.toOpt
            volume_avg := d.volume?.map fun v => (rollingMean v 20).map Fl.toOpt } }

/-! ### Stock directory (`stock_search.py`) -/

/-- Whitespace as stripped by `str.strip()`. -/
def isWs (c : Char) : Bool := c = ' ' || c = '\t' || c = '\n' || c = '\r'

/-- Embedding of `str.strip()`: leading and trailing whitespace removed. -/
def trimChars (l : List Char) : List Char :=
  ((l.dropWhile isWs).reverse.dropWhile isWs).reverse

/-- Substring test on character lists, the semantics of Python's
`needle in haystack` (an empty needle is contained in everything). -/
def isSubstrL (n : List Char) : List Char → Bool
  | [] => n.isEmpty
  | c :: t => n.isPrefixOf (c :: t) || isSubstrL n t

/-- Substring test on strings. -/
def containsS (needle hay : String) : Bool := isSubstrL needle.data hay.data

/-- Lexicographic comparison of character lists by code point, the order
Python uses to compare the `str` components of sort keys. -/
def charListLe : List Char → List Char → Bool
  | [], _ => true
  | _ :: _, [] => false
  | a :: as, b :: bs => if a < b then true else if b < a then false else charListLe as bs

/-- The static `POPULAR_STOCKS` table of `stock_search.py`, in insertion
order: ticker, company name, sector. -/
def POPULAR_STOCKS : List (String × String × String) :=
  [("AAPL", "Apple Inc.", "Technology"),
   ("MSFT", "Microsoft Corporation", "Technology"),
   ("GOOGL", "Alphabet Inc.", "Technology"),
   ("GOOG", "Alphabet Inc.", "Technology"),
   ("AMZN", "Amazon.com Inc.", "Consumer Cyclical"),
   ("META", "Meta Platforms Inc.", "Technology"),
   ("NVDA", "NVIDIA Corporation", "Technology"),
   ("TSLA", "Tesla Inc.", "Consumer Cyclical"),
   ("NFLX", "Netflix Inc.", "Communication Services"),
   ("AMD", "Advanced Micro Devices", "Technology"),
   ("INTC", "Intel Corporation", "Technology"),
   ("CRM", "Salesforce Inc.", "Technology"),
   ("ORCL", "Oracle Corporation", "Technology"),
   ("IBM", "International Business Machines", "Technology"),
   ("CSCO", "Cisco Systems Inc.", "Technology"),
   ("JPM", "JPMorgan Chase & Co.", "Financial Services"),
   ("BAC", "Bank of America Corp", "Financial Services"),
   ("WFC", "Wells Fargo & Company", "Financial Services"),
   ("GS", "Goldman Sachs Group Inc.", "Financial Services"),
   ("MS", "Morgan Stanley", "Financial Services"),
   ("C", "Citigroup Inc.", "Financial Services"),
   ("JNJ", "Johnson & Johnson", "Healthcare"),
   ("UNH", "UnitedHealth Group Inc.", "Healthcare"),
   ("PFE", "Pfizer Inc.", "Healthcare"),
   ("ABBV", "AbbVie Inc.", "Healthcare"),
   ("MRK", "Merck & Co. Inc.", "Healthcare"),
   ("TMO", "Thermo Fisher Scientific Inc.", "Healthcare"),
   ("WMT", "Walmart Inc.", "Consumer Defensive"),
   ("PG", "Procter & Gamble Co.", "Consumer Defensive"),
   ("KO", "The Coca-Cola Company", "Consumer Defensive"),
   ("PEP", "PepsiCo Inc.", "Consumer Defensive"),
   ("NKE", "Nike Inc.", "Consumer Cyclical"),
   ("SBUX", "Starbucks Corporation", "Consumer Cyclical"),
   ("MCD", "McDonald\x27s Corporation", "Consumer Cyclical"),
   ("BA", "The Boeing Company", "Industrials"),
   ("CAT", "Caterpillar Inc.", "Industrials"),
   ("GE", "General Electric Company", "Industrials"),
   ("HON", "Honeywell International Inc.", "Industrials"),
   ("XOM", "Exxon Mobil Corporation", "Energy"),
   ("CVX", "Chevron Corporation", "Energy"),
   ("COP", "ConocoPhillips", "Energy"),
   ("VZ", "Verizon Communications Inc.", "Communication Services"),
   ("T", "AT&T Inc.", "Communication Services"),
   ("DIS", "The Walt Disney Company", "Communication Services"),
   ("CMCSA", "Comcast Corporation", "Communication Services"),
   ("V", "Visa Inc.", "Financial Services"),
   ("MA", "Mastercard Incorporated", "Financial Services"),
   ("HD", "The Home Depot Inc.", "Consumer Cyclical"),
   ("MRNA", "Moderna Inc.", "Healthcare"),
   ("PYPL", "PayPal Holdings Inc.", "Financial Services"),
   ("UBER", "Uber Technologies Inc.", "Technology"),
   ("LYFT", "Lyft Inc.", "Technology"),
   ("SPOT", "Spotify Technology S.A.", "Communication Services"),
   ("SQ", "Block Inc.", "Technology"),
   ("SHOP", "Shopify Inc.", "Technology"),
   ("ZM", "Zoom Video Communications", "Technology"),
   ("ROKU", "Roku Inc.", "Communication Services")]

/-- One entry of the result list of `search_stocks`. -/
structure StockResult where
  ticker : String
  name : String
  sector : String
  match_type : String
deriving DecidableEq

/-- The priority of a match type,
`{"ticker_exact": 0, "ticker_prefix": 1, "name_match": 2}.get(mt, 3)`. -/
def stockPr (mt : String) : ℕ :=
  if mt = "ticker_exact" then 0
  else if mt = "ticker_prefix" then 1
  else if mt = "name_match" then 2
  else 3

/-- The sort key order of `search_stocks`: first by match-type priority,
ties broken by ticker (Python tuple comparison of `(priority, ticker)`). -/
def stockLe (x y : StockResult) : Prop :=
  stockPr x.match_type < stockPr y.match_type ∨
    (stockPr x.match_type = stockPr y.match_type ∧
      charListLe x.ticker.data y.ticker.data = true)

instance : DecidableRel stockLe := fun x y => by
  unfold stockLe
  exact inferInstance

instance : IsTotal StockResult stockLe := by
  constructor
  have key : ∀ a b : List Char, charListLe a b = true ∨ charListLe b a = true := by
    intro a
    induction a with
    | nil => intro b; exact Or.inl rfl
    | cons a as ih =>
      intro b
      cases b with
      | nil => exact Or.inr rfl
      | cons b bs =>
        simp only [charListLe]
        rcases lt_trichotomy a b with h | h | h
        · left; simp [h]
        · subst h
          simpa [lt_irrefl] using ih bs
        · right; simp [h, asymm h]
  intro x y
  unfold stockLe
  rcases Nat.lt_trichotomy (stockPr x.match_type) (stockPr y.match_type) with h | h | h
  · exact Or.inl (Or.inl h)
  · rcases key x.ticker.data y.ticker.data with hc | hc
    · exact Or.inl (Or.inr ⟨h, hc⟩)
    · exact Or.inr (Or.inr ⟨h.symm, hc⟩)
  · exact Or.inr (Or.inl h)

instance : IsTrans StockResult stockLe := by
  constructor
  have key : ∀ a b c : List Char, charListLe a b = true → charListLe b c = true →
      charListLe a c = true := by
    intro a
    induction a with
    | nil => intro b c _ _; rfl
    | cons a as ih =>
      intro b c h1 h2
      cases b with
      | nil => simp [charListLe] at h1
      | cons b bs =>
        cases c with
        | nil => simp [charListLe] at h2
        | cons c cs =>
          simp only [charListLe] at h1 h2 ⊢
          rcases lt_trichotomy a b with hab | hab | hab
          · rcases lt_trichotomy b c with hbc | hbc | hbc
            · simp [hab.trans hbc]
            · subst hbc; simp [hab]
            · simp [hab, asymm hab] at h1
              simp [hbc, asymm hbc] at h2
          · subst hab
            rcases lt_trichotomy a c with hac | hac | hac
            · simp [hac]
            · subst hac
              simp only [lt_irrefl, if_false] at h1 h2 ⊢
              exact ih bs cs h1 h2
            · simp [hac, asymm hac] at h2
          · simp [hab, asymm hab] at h1
  intro x y z hxy hyz
  unfold stockLe at hxy hyz ⊢
  rcases hxy with h1 | ⟨h1, hc1⟩
  · rcases hyz with h2 | ⟨h2, _⟩
    · exact Or.inl (h1.trans h2)
    · exact Or.inl (h2 ▸ h1)
  · rcases hyz with h2 | ⟨h2, hc2⟩
    · exact Or.inl (h1 ▸ h2)
    · exact Or.inr ⟨h1.trans h2, key _ _ _ hc1 hc2⟩

/-- Embedding of `search_stocks` from `stock_search.py`: exact ticker
match, ticker-prefix matches, then name-substring matches, stably sorted
by `(priority, ticker)` and truncated to `limit`. -/
def search_stocks (query : String) (limit : Nat) : List StockResult :=
  if query = "" then []
  else
    let qU : String := ⟨trimChars (query.data.map Char.toUpper)⟩
    let exact : List StockResult :=
      match POPULAR_STOCKS.find? (fun e => e.1 == qU) with
      | some e => [StockResult.mk qU e.2.1 e.2.2 "ticker_exact"]
      | none => []
    let prefMatches : List StockResult :=
      POPULAR_STOCKS.filterMap fun e =>
        if qU.data.isPrefixOf e.1.data && !(e.1 == qU)
        then some (StockResult.mk e.1 e.2.1 e.2.2 "ticker_prefix") else none
    let res01 := exact ++ prefMatches
    let qL : List Char := trimChars (query.data.map Char.toLower)
    let nameMatches : List StockResult :=
      POPULAR_STOCKS.filterMap fun e =>
        if isSubstrL qL (e.2.1.data.map Char.toLower)
            && !((res01.map StockResult.ticker).contains e.1)
        then some (StockResult.mk e.1 e.2.1 e.2.2 "name_match") else none
    (List.insertionSort stockLe (res01 ++ nameMatches)).take limit

/-! ### Concrete inputs used by the witnesses below -/

/-- An empty indicator-series bundle (all series empty, no volume). -/
def emptySeries : IndicatorSeries := ⟨[], [], [], [], [], [], [], none⟩

/-- A successful indicator bundle with empty series and price 1. -/
def indA : Indicators := ⟨true, 1, emptySeries⟩

/-- A one-row price frame with a `Close` column only. -/
def pdA : PriceData := ⟨some [1], none⟩

/-- A frame with neither a `Close` nor a `Volume` column. -/
def emptyPd : PriceData := ⟨none, none⟩

/-- An indicator bundle whose `success` flag is false. -/
def indBad : Indicators := ⟨false, 0, emptySeries⟩

/-- A bundle exhibiting a Golden Cross: SMA50 goes 1 → 3 while SMA200
stays at 2. -/
def serC3 : IndicatorSeries := ⟨[], [some 1, some 3], [some 2, some 2], [], [], [], [], none⟩

/-- A successful bundle around `serC3` (price 0 keeps the other rules
silent). -/
def indC3 : Indicators := ⟨true, 0, serC3⟩

/-- A bundle whose latest SMA200 equals the current price (both 5). -/
def serC10 : IndicatorSeries := ⟨[], [], [some 5], [], [], [], [], none⟩

/-- A successful bundle around `serC10` with current price 5. -/
def indC10 : Indicators := ⟨true, 5, serC10⟩

/-! ### Helper lemmas -/

theorem isSubstrL_nil (t : List Char) : isSubstrL [] t = true := by
  cases t <;> simp [isSubstrL, List.isPrefixOf]

theorem isSubstrL_append_right (n : List Char) :
    ∀ (s t : List Char), isSubstrL n s = true → isSubstrL n (s ++ t) = true := by
  intro s
  induction s with
  | nil =>
    intro t h
    simp only [isSubstrL, List.isEmpty_iff] at h
    subst h
    exact isSubstrL_nil t
  | cons c cs ih =>
    intro t h
    simp only [isSubstrL, Bool.or_eq_true] at h ⊢
    rcases h with h | h
    · left
      rw [List.isPrefixOf_iff_prefix] at h ⊢
      exact h.trans (List.prefix_append (c :: cs) t)
    · right
      exact ih t h

theorem isSubstrL_middle (n : List Char) :
    ∀ (pre s post : List Char), isSubstrL n s = true →
      isSubstrL n (pre ++ (s ++ post)) = true := by
  intro pre
  induction pre with
  | nil => intro s post h; simpa using isSubstrL_append_right n s post h
  | cons c cs ih =>
    intro s post h
    have := ih s post h
    simp only [List.cons_append, isSubstrL, Bool.or_eq_true]
    right
    exact this

theorem joinComma_data_mem : ∀ (parts : List String) (p : String), p ∈ parts →
    ∃ pre post : List Char, (joinComma parts).data = pre ++ (p.data ++ post)
  | [], p, hp => absurd hp (List.not_mem_nil p)
  | [x], p, hp => by
      rcases List.mem_singleton.mp hp with rfl
      exact ⟨[], [], by simp [joinComma]⟩
  | x :: y :: ys, p, hp => by
      rcases List.mem_cons.mp hp with rfl | hmem
      · refine ⟨[], (", " ++ joinComma (y :: ys)).data, ?_⟩
        simp [joinComma, String.data_append]
      · obtain ⟨pre, post, hpp⟩ := joinComma_data_mem (y :: ys) p hmem
        refine ⟨x.data ++ ", ".data ++ pre, post, ?_⟩
        simp [joinComma, String.data_append, hpp]

theorem containsS_joinComma (sub p : String) (parts : List String)
    (hp : p ∈ parts) (hsub : isSubstrL sub.data p.data = true) :
    containsS sub (joinComma parts) = true := by
  obtain ⟨pre, post, hd⟩ := joinComma_data_mem parts p hp
  unfold containsS
  rw [hd]
  exact isSubstrL_middle sub.data pre p.data post hsub

theorem gains_length (l : List ℚ) : (gains l).length = l.length := by
  simp [gains, deltas]

theorem losses_length (l : List ℚ) : (losses l).length = l.length := by
  simp [losses, deltas]

theorem gains_nonneg (l : List ℚ) : ∀ x ∈ gains l, 0 ≤ x := by
  intro x hx
  simp only [gains, List.mem_map] at hx
  obtain ⟨d, _, rfl⟩ := hx
  cases d with
  | fin q =>
    by_cases hq : 0 < q
    · simpa [hq] using le_of_lt hq
    · simp [hq]
  | nan => simp
  | inf => simp
  | neginf => simp

theorem losses_nonneg (l : List ℚ) : ∀ x ∈ losses l, 0 ≤ x := by
  intro x hx
  simp only [losses, List.mem_map] at hx
  obtain ⟨d, _, rfl⟩ := hx
  cases d with
  | fin q =>
    by_cases hq : q < 0
    · simpa [hq] using le_of_lt (neg_pos.mpr hq)
    · simp [hq]
  | nan => simp
  | inf => simp
  | neginf => simp

theorem qsum_nonneg (l : List ℚ) (h : ∀ x ∈ l, 0 ≤ x) : 0 ≤ qsum l := by
  induction l with
  | nil => simp [qsum]
  | cons x xs ih =>
    have hx := h x (List.mem_cons_self x xs)
    have hxs := ih fun y hy => h y (List.mem_cons_of_mem x hy)
    simpa [qsum] using add_nonneg hx hxs

theorem rollingMean_nonneg (l : List ℚ) (w : Nat) (h : ∀ x ∈ l, 0 ≤ x) :
    ∀ fl ∈ rollingMean l w, fl = Fl.nan ∨ ∃ m : ℚ, fl = Fl.fin m ∧ 0 ≤ m := by
  intro fl hfl
  simp only [rollingMean, List.mem_map, List.mem_range] at hfl
  obtain ⟨i, _, rfl⟩ := hfl
  by_cases hc : i + 1 < w
  · left; rw [if_pos hc]
  · right
    rw [if_neg hc]
    refine ⟨_, rfl, ?_⟩
    refine div_nonneg (qsum_nonneg _ ?_) (by positivity)
    intro x hx
    exact h x (List.mem_of_mem_take (List.mem_of_mem_drop hx))

/-! ### Claim theorems -/

/-- C1: for every indicator snapshot accepted by the success gate,
`generate_short_term_signal` returns BUY exactly when the accumulated
buy score exceeds the sell score and is at least 2, SELL exactly when the
sell score exceeds the buy score and is at least 2, HOLD otherwise; in
particular a score tie always yields HOLD. -/
theorem short_term_decision (ind : Indicators) (pd : PriceData)
    (h : ind.success = true) :
    ((generate_short_term_signal ind pd).1 = "BUY" ↔
      (stScores ind pd).2.1 < (stScores ind pd).1 ∧ 2 ≤ (stScores ind pd).1) ∧
    ((generate_short_term_signal ind pd).1 = "SELL" ↔
      (stScores ind pd).1 < (stScores ind pd).2.1 ∧ 2 ≤ (stScores ind pd).2.1) ∧
    ((generate_short_term_signal ind pd).1 = "HOLD" ↔
      (¬((stScores ind pd).2.1 < (stScores ind pd).1 ∧ 2 ≤ (stScores ind pd).1) ∧
       ¬((stScores ind pd).1 < (stScores ind pd).2.1 ∧ 2 ≤ (stScores ind pd).2.1))) ∧
    ((stScores ind pd).1 = (stScores ind pd).2.1 →
      (generate_short_term_signal ind pd).1 = "HOLD") := by
  have hg : (generate_short_term_signal ind pd).1
      = stDecide (stScores ind pd).1 (stScores ind pd).2.1 := by
    simp [generate_short_term_signal, h]
  rw [hg]
  unfold stDecide
  by_cases h1 : (stScores ind pd).2.1 < (stScores ind pd).1 ∧ 2 ≤ (stScores ind pd).1 <;>
    by_cases h2 : (stScores ind pd).1 < (stScores ind pd).2.1 ∧ 2 ≤ (stScores ind pd).2.1 <;>
    simp [h1, h2] <;> omega

/-- Witness for C1: on a successful bundle with all-empty series both
scores are 0 (a tie) and the signal is HOLD. -/
theorem short_term_decision_witness :
    (generate_short_term_signal indA pdA).1 = "HOLD" :=
  (short_term_decision indA pdA rfl).2.2.2 rfl

/-- C2: for every indicator snapshot accepted by the success gate,
`generate_long_term_signal` returns BUY exactly when the buy score is at
least 4, SELL when the sell score is at least 4 and the buy score is not,
HOLD (Bullish) / HOLD (Bearish) by score comparison when neither threshold
is met, HOLD on a tie; the decision ladder maps scores (4,0) to BUY and
(3,0) to HOLD (Bullish). -/
theorem long_term_decision (ind : Indicators) (pd : PriceData)
    (recs : List Recommendation) (h : ind.success = true) :
    ((generate_long_term_signal ind pd recs).1 = "BUY" ↔ 4 ≤ (ltScores ind recs).1) ∧
    ((generate_long_term_signal ind pd recs).1 = "SELL" ↔
      ((ltScores ind recs).1 < 4 ∧ 4 ≤ (ltScores ind recs).2.1)) ∧
    ((generate_long_term_signal ind pd recs).1 = "HOLD (Bullish)" ↔
      ((ltScores ind recs).1 < 4 ∧ (ltScores ind recs).2.1 < 4 ∧
        (ltScores ind recs).2.1 < (ltScores ind recs).1)) ∧
    ((generate_long_term_signal ind pd recs).1 = "HOLD (Bearish)" ↔
      ((ltScores ind recs).1 < 4 ∧ (ltScores ind recs).2.1 < 4 ∧
        (ltScores ind recs).1 < (ltScores ind recs).2.1)) ∧
    ((generate_long_term_signal ind pd recs).1 = "HOLD" ↔
      ((ltScores ind recs).1 < 4 ∧ (ltScores ind recs).2.1 < 4 ∧
        (ltScores ind recs).1 = (ltScores ind recs).2.1)) ∧
    ltDecide 4 0 = "BUY" ∧ ltDecide 3 0 = "HOLD (Bullish)" := by
  have hg : (generate_long_term_signal ind pd recs).1
      = ltDecide (ltScores ind recs).1 (ltScores ind recs).2.1 := by
    simp [generate_long_term_signal, h]
  rw [hg]
  refine ⟨?_, ?_, ?_, ?_, ?_, by decide, by decide⟩ <;>
  · unfold ltDecide
    by_cases h1 : 4 ≤ (ltScores ind recs).1 <;>
      by_cases h2 : 4 ≤ (ltScores ind recs).2.1 <;>
      by_cases h3 : (ltScores ind recs).2.1 < (ltScores ind recs).1 <;>
      by_cases h4 : (ltScores ind recs).1 < (ltScores ind recs).2.1 <;>
      simp [h1, h2, h3, h4] <;> omega

/-- Witness for C2: on a successful bundle with all-empty series both long
scores are 0 and the signal is HOLD. -/
theorem long_term_decision_witness :
    (generate_long_term_signal indA pdA []).1 = "HOLD" :=
  (long_term_decision indA pdA [] rfl).2.2.2.2.1.mpr ⟨by decide, by decide, rfl⟩

/-- C3: when the latest SMA50 and SMA200 are defined, the SMA50 series has
length at least 2, the previous SMA50 does not exceed the previous SMA200
and the current SMA50 exceeds the current SMA200, the crossover rule
contributes +3 to the long-term buy score and the returned reason contains
"Golden Cross"; the crossing-down case contributes +3 sell, and without a
crossing the rule contributes +1 buy when SMA50 > SMA200 and +1 sell when
SMA50 < SMA200. -/
theorem golden_cross_rule (ind : Indicators) (pd : PriceData)
    (recs : List Recommendation) (a b : ℚ)
    (hsucc : ind.success = true)
    (h50 : lastVal ind.series.sma_50 = some a)
    (h200 : lastVal ind.series.sma_200 = some b)
    (hlen : 2 ≤ ind.series.sma_50.length) :
    (oleO (prevVal ind.series.sma_50) (prevSma200 ind.series.sma_200 b) = true → b < a →
      ltRule2 ind = (3, 0, ["Golden Cross detected (SMA50 > SMA200) - strong bullish signal"]) ∧
      containsS "Golden Cross" (generate_long_term_signal ind pd recs).2 = true) ∧
    (ogeO (prevVal ind.series.sma_50) (prevSma200 ind.series.sma_200 b) = true → a < b →
      ltRule2 ind = (0, 3, ["Death Cross detected (SMA50 < SMA200) - strong bearish signal"])) ∧
    (oleO (prevVal ind.series.sma_50) (prevSma200 ind.series.sma_200 b) = false → b < a →
      ltRule2 ind = (1, 0, ["SMA50 above SMA200 - positive trend"])) ∧
    (ogeO (prevVal ind.series.sma_50) (prevSma200 ind.series.sma_200 b) = false → a < b →
      ltRule2 ind = (0, 1, ["SMA50 below SMA200 - negative trend"])) := by
  have hne50 : ind.series.sma_50.isEmpty = false := by
    cases h : ind.series.sma_50 with
    | nil => rw [h] at hlen; simp at hlen
    | cons x xs => simp
  have hne200 : ind.series.sma_200.isEmpty = false := by
    cases h : ind.series.sma_200 with
    | nil => rw [h] at h200; simp [lastVal] at h200
    | cons x xs => simp
  have hguard : ind.series.sma_50.isEmpty = false ∧ ind.series.sma_200.isEmpty = false ∧
      2 ≤ ind.series.sma_50.length := ⟨hne50, hne200, hlen⟩
  have hrule : ∀ r : ℕ × ℕ × List String, (
      (if oleO (prevVal ind.series.sma_50) (prevSma200 ind.series.sma_200 b)
          && decide (b < a) then
        ((3 : ℕ), (0 : ℕ), ["Golden Cross detected (SMA50 > SMA200) - strong bullish signal"])
      else if ogeO (prevVal ind.series.sma_50) (prevSma200 ind.series.sma_200 b)
          && decide (a < b) then
        ((0 : ℕ), (3 : ℕ), ["Death Cross detected (SMA50 < SMA200) - strong bearish signal"])
      else if b < a then ((1 : ℕ), (0 : ℕ), ["SMA50 above SMA200 - positive trend"])
      else if a < b then ((0 : ℕ), (1 : ℕ), ["SMA50 below SMA200 - negative trend"])
      else ((0 : ℕ), (0 : ℕ), ([] : List String))) = r) → ltRule2 ind = r := by
    intro r hr
    unfold ltRule2
    rw [h50, h200]
    dsimp only
    rw [if_pos hguard]
    exact hr
  refine ⟨fun hle hba => ?_, fun hge hab => ?_, fun hnle hba => ?_, fun hnge hab => ?_⟩
  · have hr2 : ltRule2 ind
        = (3, 0, ["Golden Cross detected (SMA50 > SMA200) - strong bullish signal"]) :=
      hrule _ (by simp [hle, hba])
    refine ⟨hr2, ?_⟩
    have hmem : "Golden Cross detected (SMA50 > SMA200) - strong bullish signal"
        ∈ (ltScores ind recs).2.2 := by
      unfold ltScores ltRest
      rw [hr2]
      simp
    have hnonempty : (ltScores ind recs).2.2.isEmpty = false := by
      cases h : (ltScores ind recs).2.2 with
      | nil => rw [h] at hmem; simp at hmem
      | cons x xs => simp
    have hsnd : (generate_long_term_signal ind pd recs).2
        = joinComma (ltScores ind recs).2.2 := by
      simp [generate_long_term_signal, hsucc, hnonempty]
    rw [hsnd]
    exact containsS_joinComma _ _ _ hmem (by decide)
  · exact hrule _ (by
      have : ¬ (b < a) := lt_asymm hab
      simp [hge, hab, this])
  · exact hrule _ (by
      have : ¬ (a < b) := lt_asymm hba
      simp [hnle, hba, this])
  · exact hrule _ (by
      have : ¬ (b < a) := lt_asymm hab
      simp [hnge, hab, this])

/-- Witness for C3: the concrete Golden-Cross bundle `indC3` (SMA50 1 → 3,
SMA200 constant 2) scores +3 buy with the Golden Cross reason. -/
theorem golden_cross_rule_witness :
    ltRule2 indC3
      = (3, 0, ["Golden Cross detected (SMA50 > SMA200) - strong bullish signal"]) ∧
    containsS "Golden Cross" (generate_long_term_signal indC3 pdA []).2 = true :=
  (golden_cross_rule indC3 pdA [] 3 2 rfl rfl rfl (by decide)).1 (by decide) (by decide)

/-- C4 (amended): on a price series shorter than the window, `calculate_sma`
and `calculate_rsi` produce "no value" (NaN) at every position and none of
the three functions raises (they are total); `calculate_ema`, however,
produces a defined value at every position, because `ewm(adjust=False)` is
seeded at the first price — the claim that every EMA output position is
"no value" is refuted by `ema_short_series_counterexample`. -/
theorem short_history_no_value (l : List ℚ) (w : Nat) (h : l.length < w) :
    (∀ x ∈ calculate_sma l w, x = Fl.nan) ∧
    (∀ x ∈ calculate_rsi l w, x = Fl.nan) ∧
    (∀ x ∈ calculate_ema l w, x ≠ Fl.nan) := by
  refine ⟨?_, ?_, ?_⟩
  · intro x hx
    simp only [calculate_sma, rollingMean, List.mem_map, List.mem_range] at hx
    obtain ⟨i, hi, rfl⟩ := hx
    rw [if_pos (by omega)]
  · intro x hx
    simp only [calculate_rsi, List.mem_map] at hx
    obtain ⟨⟨ga, lo⟩, hmem, rfl⟩ := hx
    have h1 := (List.of_mem_zip hmem).1
    have h2 := (List.of_mem_zip hmem).2
    have hga : ga = Fl.nan := by
      simp only [rollingMean, List.mem_map, List.mem_range, gains_length] at h1
      obtain ⟨i, hi, rfl⟩ := h1
      rw [if_pos (by omega)]
    have hlo : lo = Fl.nan := by
      simp only [rollingMean, List.mem_map, List.mem_range, losses_length] at h2
      obtain ⟨i, hi, rfl⟩ := h2
      rw [if_pos (by omega)]
    subst hga
    subst hlo
    rfl
  · intro x hx
    cases l with
    | nil => simp [calculate_ema] at hx
    | cons c cs =>
      simp only [calculate_ema, List.mem_cons, List.mem_map] at hx
      rcases hx with rfl | ⟨q, hq, rfl⟩ <;> simp

/-- Counterexample for C4 as stated: the series `[5]` is shorter than the
EMA window 3, yet `calculate_ema` produces the defined value 5 at its only
position, not "no value". -/
theorem ema_short_series_counterexample :
    ([(5 : ℚ)].length < 3) ∧ ¬ (∀ x ∈ calculate_ema [(5 : ℚ)] 3, x = Fl.nan) := by
  constructor
  · decide
  · intro hall
    have h5 : calculate_ema [(5 : ℚ)] 3 = [Fl.fin 5] := rfl
    have := hall (Fl.fin 5) (by rw [h5]; simp)
    simp at this

/-- Witness for C4 (amended): on the one-point series `[2]` with window 2,
SMA and RSI are all-NaN while the EMA has no NaN position. -/
theorem short_history_no_value_witness :
    (∀ x ∈ calculate_sma [(2 : ℚ)] 2, x = Fl.nan) ∧
    (∀ x ∈ calculate_rsi [(2 : ℚ)] 2, x = Fl.nan) ∧
    (∀ x ∈ calculate_ema [(2 : ℚ)] 2, x ≠ Fl.nan) :=
  short_history_no_value [2] 2 (by decide)

/-- C5 (amended): at a position where the rolling loss average is zero,
`calculate_rsi` yields "no value" (NaN) only when the gain average is also
zero (0/0); when the gain average is strictly positive the division yields
+infinity and the RSI is the defined number 100 — the original claim that
such positions are always "no value" is refuted by
`rsi_zero_loss_counterexample`. -/
theorem rsi_zero_loss (l : List ℚ) (w i : Nat) (g : ℚ)
    (hlo : (rollingMean (losses l) w)[i]? = some (Fl.fin 0))
    (hg : (rollingMean (gains l) w)[i]? = some (Fl.fin g)) :
    (0 < g → (calculate_rsi l w)[i]? = some (Fl.fin 100)) ∧
    (g = 0 → (calculate_rsi l w)[i]? = some Fl.nan) := by
  have hzip : ((rollingMean (gains l) w).zip (rollingMean (losses l) w))[i]?
      = some (Fl.fin g, Fl.fin 0) := List.getElem?_zip_eq_some.mpr ⟨hg, hlo⟩
  have hrsi : (calculate_rsi l w)[i]? = some (rsiPoint (Fl.fin g) (Fl.fin 0)) := by
    unfold calculate_rsi
    rw [List.getElem?_map, hzip]
    rfl
  rw [hrsi]
  constructor
  · intro hpos
    have hne : g ≠ 0 := ne_of_gt hpos
    simp [rsiPoint, Fl.div, Fl.add, Fl.sub, Fl.neg, hne, hpos]
  · intro hz
    simp [rsiPoint, Fl.div, Fl.add, Fl.sub, Fl.neg, hz]

/-- Counterexample for C5 as stated: on the rising series `[1, 2]` with
window 1, position 1 has loss average zero, yet the RSI there is the
defined number 100, not "no value". -/
theorem rsi_zero_loss_counterexample :
    (rollingMean (losses [(1 : ℚ), 2]) 1)[1]? = some (Fl.fin 0) ∧
    (calculate_rsi [(1 : ℚ), 2] 1)[1]? = some (Fl.fin 100) ∧
    Fl.fin (100 : ℚ) ≠ Fl.nan := by
  refine ⟨?_, ?_, by simp⟩
  · norm_num [rollingMean, losses, deltas, windowSlice, qsum, List.range_succ]
  · have hl : losses [(1 : ℚ), 2] = [0, 0] := by
      norm_num [losses, deltas, List.range_succ]
    have hga : gains [(1 : ℚ), 2] = [0, 1] := by
      norm_num [gains, deltas, List.range_succ]
    unfold calculate_rsi
    rw [hl, hga]
    norm_num [rollingMean, windowSlice, qsum, List.range_succ, rsiPoint,
      Fl.div, Fl.add, Fl.sub, Fl.neg, List.zip]

/-- Witness for C5 (amended): at position 1 of `[1, 2]` with window 1 the
loss average is 0 and the gain average is 1, so the RSI is 100. -/
theorem rsi_zero_loss_witness :
    (0 < (1 : ℚ) → (calculate_rsi [(1 : ℚ), 2] 1)[1]? = some (Fl.fin 100)) ∧
    ((1 : ℚ) = 0 → (calculate_rsi [(1 : ℚ), 2] 1)[1]? = some Fl.nan) :=
  rsi_zero_loss [1, 2] 1 1 1
    (by norm_num [rollingMean, losses, deltas, windowSlice, qsum, List.range_succ])
    (by norm_num [rollingMean, gains, deltas, windowSlice, qsum, List.range_succ])

/-- C6: every defined (non-NaN) value produced by `calculate_rsi` is a
finite number in the closed interval [0, 100]. -/
theorem rsi_bounded (l : List ℚ) (w : Nat) :
    ∀ x ∈ calculate_rsi l w, x ≠ Fl.nan → ∃ q : ℚ, x = Fl.fin q ∧ 0 ≤ q ∧ q ≤ 100 := by
  intro x hx hnan
  simp only [calculate_rsi, List.mem_map] at hx
  obtain ⟨⟨ga, lo⟩, hmem, rfl⟩ := hx
  have h1 := (List.of_mem_zip hmem).1
  have h2 := (List.of_mem_zip hmem).2
  rcases rollingMean_nonneg (gains l) w (gains_nonneg l) ga h1 with rfl | ⟨g, rfl, hg⟩
  · exact absurd (by cases lo <;> rfl) hnan
  · rcases rollingMean_nonneg (losses l) w (losses_nonneg l) lo h2 with rfl | ⟨m, rfl, hm⟩
    · exact absurd rfl hnan
    · by_cases hm0 : m = 0
      · subst hm0
        by_cases hg0 : g = 0
        · subst hg0
          exact absurd rfl hnan
        · have hgpos : 0 < g := lt_of_le_of_ne hg (Ne.symm hg0)
          refine ⟨100, ?_, by norm_num, le_refl 100⟩
          simp [rsiPoint, Fl.div, Fl.add, Fl.sub, Fl.neg, hg0, hgpos]
      · have hmpos : 0 < m := lt_of_le_of_ne hm (Ne.symm hm0)
        have hrs : 0 ≤ g / m := div_nonneg hg hm
        have hden : (0 : ℚ) < 1 + g / m := by linarith
        have hdenne : (1 : ℚ) + g / m ≠ 0 := ne_of_gt hden
        have hdle : (100 : ℚ) / (1 + g / m) ≤ 100 :=
          div_le_self (by norm_num) (by linarith)
        have hdpos : (0 : ℚ) < 100 / (1 + g / m) := by positivity
        refine ⟨100 - 100 / (1 + g / m), ?_, by linarith, by linarith⟩
        simp [rsiPoint, Fl.div, Fl.add, Fl.sub, Fl.neg, hm0, hdenne]
        ring

/-- Witness for C6: the defined RSI value 100 (from `[1, 2]`, window 1)
lies within [0, 100]. -/
theorem rsi_bounded_witness :
    ∃ q : ℚ, Fl.fin 100 = Fl.fin q ∧ 0 ≤ q ∧ q ≤ 100 :=
  rsi_bounded [1, 2] 1 (Fl.fin 100)
    (by
      have h : calculate_rsi [(1 : ℚ), 2] 1 = [Fl.nan, Fl.fin 100] := by
        norm_num [calculate_rsi, rollingMean, gains, losses, deltas, windowSlice,
          qsum, List.range_succ, List.zip, rsiPoint, Fl.div, Fl.add, Fl.sub, Fl.neg]
      rw [h]
      simp)
    (by simp)

/-- C7: the volume-confirmation step of `generate_short_term_signal` never
changes the scores — the final scores equal those accumulated by the RSI,
SMA20 and momentum rules alone — and it appends exactly one
"High volume confirms" note precisely when the latest 20-period average
volume is a positive number, the volume ratio exceeds 1.5 and one score
strictly leads the other; the returned signal is decided from the
rule-only scores. -/
theorem volume_note_frame (ind : Indicators) (pd : PriceData)
    (h : ind.success = true) :
    (stScores ind pd).1 = (stCore ind pd).1 ∧
    (stScores ind pd).2.1 = (stCore ind pd).2.1 ∧
    (stScores ind pd).2.2
      = (stCore ind pd).2.2 ++ stVolNote ind pd (stCore ind pd).1 (stCore ind pd).2.1 ∧
    (∀ b s : ℕ, stVolNote ind pd b s =
      if volCond ind pd = true then
        (if s < b then ["High volume confirms bullish move"]
         else if b < s then ["High volume confirms bearish move"]
         else [])
      else []) ∧
    (generate_short_term_signal ind pd).1 = stDecide (stCore ind pd).1 (stCore ind pd).2.1 := by
  refine ⟨rfl, rfl, rfl, ?_, ?_⟩
  · intro b s
    unfold stVolNote volCond
    cases hva : ind.series.volume_avg with
    | none => simp
    | some va =>
      dsimp only
      by_cases hem : va.isEmpty = true
      · simp [hem]
      · simp only [hem, if_false, Bool.false_eq_true]
        cases hvol : pd.volume? with
        | none => simp
        | some vol =>
          dsimp only
          cases hcv : vol.getLast? with
          | none => simp
          | some cv =>
            dsimp only
            cases hav : lastVal va with
            | none => simp
            | some av =>
              dsimp only
              by_cases h1 : 0 < av
              · by_cases h2 : (3:ℚ)/2 < cv/av
                · simp [h1, h2]
                · simp [h1, h2]
              · simp [h1]
  · simp [generate_short_term_signal, h, stScores]

/-- Witness for C7: on the bundle with no volume series the final signal is
decided from the rule-only scores. -/
theorem volume_note_frame_witness :
    (generate_short_term_signal indA pdA).1
      = stDecide (stCore indA pdA).1 (stCore indA pdA).2.1 :=
  (volume_note_frame indA pdA rfl).2.2.2.2

/-- C8: `calculate_all_indicators` returns the tagged error
"Invalid price data" (rather than raising) on an empty frame or a frame
without a Close column, and each signal function returns exactly
("HOLD", "Insufficient data for analysis") whenever the indicator bundle
does not carry a truthy success flag. -/
theorem insufficient_data_handling (d : PriceData) (ind : Indicators)
    (pd : PriceData) (recs : List Recommendation)
    (h1 : d.isEmptyF = true ∨ d.close? = none) (h2 : ind.success = false) :
    calculate_all_indicators d = Except.error "Invalid price data" ∧
    generate_short_term_signal ind pd = ("HOLD", "Insufficient data for analysis") ∧
    generate_long_term_signal ind pd recs = ("HOLD", "Insufficient data for analysis") := by
  refine ⟨?_, ?_, ?_⟩
  · unfold calculate_all_indicators
    rcases h1 with h | h <;> simp [h]
  · simp [generate_short_term_signal, h2]
  · simp [generate_long_term_signal, h2]

/-- Witness for C8: the empty frame produces the tagged error and a
non-success bundle produces the fixed HOLD pair. -/
theorem insufficient_data_handling_witness :
    calculate_all_indicators emptyPd = Except.error "Invalid price data" ∧
    generate_short_term_signal indBad emptyPd = ("HOLD", "Insufficient data for analysis") ∧
    generate_long_term_signal indBad emptyPd [] = ("HOLD", "Insufficient data for analysis") :=
  insufficient_data_handling emptyPd indBad emptyPd [] (Or.inl rfl) rfl

/-- C9: for every non-empty query, `search_stocks` returns at most `limit`
entries, sorted by match-type priority (exact, then ticker-prefix, then
name-substring) with ties broken by ascending ticker; the query "AAPL"
returns exactly the AAPL entry as a ticker_exact match and the query
"Apple" returns exactly the AAPL entry as a name_match. -/
theorem search_stocks_spec (q : String) (lim : Nat) (hq : q ≠ "") :
    (search_stocks q lim).length ≤ lim ∧
    List.Sorted stockLe (search_stocks q lim) ∧
    search_stocks "AAPL" 20
      = [StockResult.mk "AAPL" "Apple Inc." "Technology" "ticker_exact"] ∧
    search_stocks "Apple" 20
      = [StockResult.mk "AAPL" "Apple Inc." "Technology" "name_match"] := by
  refine ⟨?_, ?_, by decide, by decide⟩
  · rw [search_stocks, if_neg hq]
    simp [List.length_take]
  · rw [search_stocks, if_neg hq]
    exact List.Pairwise.sublist (List.take_sublist lim _)
      (List.sorted_insertionSort stockLe _)

/-- Witness for C9: the guarantees instantiated at the query "AAPL" with
limit 20. -/
theorem search_stocks_spec_witness :
    (search_stocks "AAPL" 20).length ≤ 20 ∧
    List.Sorted stockLe (search_stocks "AAPL" 20) ∧
    search_stocks "AAPL" 20
      = [StockResult.mk "AAPL" "Apple Inc." "Technology" "ticker_exact"] ∧
    search_stocks "Apple" 20
      = [StockResult.mk "AAPL" "Apple Inc." "Technology" "name_match"] :=
  search_stocks_spec "AAPL" 20 (by decide)

/-- C10: whenever the latest SMA200 is defined and the current price is
positive, the price-vs-SMA200 rule of `generate_long_term_signal` fires:
it contributes +3 buy when the price strictly exceeds the SMA200 and +2
sell otherwise — in particular a price exactly equal to the SMA200 is
scored +2 sell; the final signal is decided from these accumulated
scores. -/
theorem sma200_rule_equality (ind : Indicators) (pd : PriceData)
    (recs : List Recommendation) (s : ℚ)
    (h200 : lastVal ind.series.sma_200 = some s)
    (hp : 0 < ind.current_price) :
    (ltScores ind recs).1 =
      (if s < ind.current_price then 3 else 0) + (ltRest ind recs).1 ∧
    (ltScores ind recs).2.1 =
      (if s < ind.current_price then 0 else 2) + (ltRest ind recs).2.1 ∧
    (ind.current_price = s →
      (ltScores ind recs).2.1 = 2 + (ltRest ind recs).2.1) ∧
    (ind.success = true →
      (generate_long_term_signal ind pd recs).1
        = ltDecide (ltScores ind recs).1 (ltScores ind recs).2.1) := by
  have hr1 : ltRule1 ind.current_price (lastVal ind.series.sma_200)
      = if s < ind.current_price
        then (3, 0, ["Price (" ++ fmtQ ind.current_price ++ ") above SMA200 ("
              ++ fmtQ s ++ ") - long-term uptrend"])
        else (0, 2, ["Price (" ++ fmtQ ind.current_price ++ ") below SMA200 ("
              ++ fmtQ s ++ ") - long-term downtrend"]) := by
    rw [h200]
    unfold ltRule1
    simp [hp]
  refine ⟨?_, ?_, ?_, fun hs => by simp [generate_long_term_signal, hs]⟩
  · unfold ltScores
    rw [hr1]
    by_cases hlt : s < ind.current_price <;> simp [hlt]
  · unfold ltScores
    rw [hr1]
    by_cases hlt : s < ind.current_price <;> simp [hlt]
  · intro he
    have hns : ¬ s < ind.current_price := by rw [he]; exact lt_irrefl s
    unfold ltScores
    rw [hr1]
    simp [hns]

/-- Witness for C10: the bundle `indC10` has price 5 equal to its latest
SMA200, and the rule scores +2 sell there. -/
theorem sma200_rule_witness :
    (ltScores indC10 []).1
      = (if (5 : ℚ) < indC10.current_price then 3 else 0) + (ltRest indC10 []).1 ∧
    (ltScores indC10 []).2.1
      = (if (5 : ℚ) < indC10.current_price then 0 else 2) + (ltRest indC10 []).2.1 ∧
    (indC10.current_price = 5 →
      (ltScores indC10 []).2.1 = 2 + (ltRest indC10 []).2.1) ∧
    (indC10.success = true →
      (generate_long_term_signal indC10 pdA []).1
        = ltDecide (ltScores indC10 []).1 (ltScores indC10 []).2.1) :=
  sma200_rule_equality indC10 pdA [] 5 rfl (by decide)
